import Mathlib

/-!
Verification development for the Burnout Covenant StreamKit repository.

The TypeScript sources are shallowly embedded:

* `src/eventSubManager.ts` — the `EventSubManager` class.  Timestamps
  (`Date.now()`, parsed `expires_at` ISO strings) are modelled as integer
  milliseconds; the ISO-string round trip is treated as the identity.  The
  remote call `client.createEventSubSubscription` is an external collaborator
  and enters the model as an `Except`-valued argument describing what the one
  performed call returns (a thrown error, or a response body whose `data`
  field is a list of subscription descriptors).  The persisted state object is
  modelled as an association list from string keys to records; JavaScript
  object access `state[key]`, assignment `state[key] = v`, and
  `JSON.stringify` over a string-to-string object (which serialises fields in
  insertion order for non-numeric keys, as all condition fields here are) are
  modelled by `lookupAssoc`, `setAssoc`, and `jsonStringifyObj` on lists kept
  in insertion order.  Renewal timers are side effects outside the state the
  claims quantify over and are not modelled.

* `src/chatBot.ts` — the `ChatBot.handleMessage` dispatcher and its helpers.
  JavaScript strings are modelled as `List Char`; `message.slice(1)` is
  `List.tail`, `split(' ')` is `splitSp`, `Array.join(' ')` is `joinSp`,
  `toLowerCase` is `toLowerStr`.  The OpenTelemetry counter increment is
  recorded in the result as `counterInc`, and a handler invocation is
  recorded as the argument triple it would receive instead of running the
  callback.
-/

namespace StreamKit

/-- Association-list lookup, modelling JavaScript `map.get(k)` / `obj[k]`
over a container kept in insertion order. -/
def lookupAssoc {α β : Type} [DecidableEq α] : List (α × β) → α → Option β
  | [], _ => none
  | (k, v) :: rest, key => if k = key then some v else lookupAssoc rest key

/-- Association-list update, modelling JavaScript `map.set(k, v)` /
`obj[k] = v`: replace the binding in place if present, append otherwise. -/
def setAssoc {α β : Type} [DecidableEq α] : List (α × β) → α → β → List (α × β)
  | [], key, v => [(key, v)]
  | (k, w) :: rest, key, v =>
    if k = key then (key, v) :: rest else (k, w) :: setAssoc rest key v

/-- Lower-case hex digit, as used by `JSON.stringify` unicode escapes. -/
def hexDigit (n : Nat) : Char :=
  if n < 10 then Char.ofNat (48 + n) else Char.ofNat (87 + n)

/-- Per-character JSON string escaping performed by `JSON.stringify`. -/
def jsonEscapeChar (c : Char) : List Char :=
  if c = '"' then ['\\', '"']
  else if c = '\\' then ['\\', '\\']
  else if c = '\n' then ['\\', 'n']
  else if c = '\r' then ['\\', 'r']
  else if c = '\t' then ['\\', 't']
  else if c = '\x08' then ['\\', 'b']
  else if c = '\x0c' then ['\\', 'f']
  else if c.toNat < 32 then
    ['\\', 'u', '0', '0', hexDigit (c.toNat / 16), hexDigit (c.toNat % 16)]
  else [c]

/-- A JSON string literal for `s`, as emitted by `JSON.stringify`. -/
def jsonQuoteChars (s : String) : List Char :=
  '"' :: (s.data.map jsonEscapeChar).flatten ++ ['"']

/-- One `"key":"value"` field of a stringified object. -/
def jsonPairChars (p : String × String) : List Char :=
  jsonQuoteChars p.1 ++ ':' :: jsonQuoteChars p.2

/-- `JSON.stringify` of a string-to-string object whose fields are listed in
insertion order (JavaScript enumerates non-numeric string keys in insertion
order, which is the case for all EventSub condition fields). -/
def jsonStringifyObj (l : List (String × String)) : String :=
  String.mk ('\x7b' :: List.intercalate [','] (l.map jsonPairChars) ++ ['\x7d'])

/-- `EventSubManager.makeKey`:
the template literal `type + ":" + JSON.stringify(condition)`. -/
def makeKey (ty : String) (cond : List (String × String)) : String :=
  ty ++ ":" ++ jsonStringifyObj cond

/-- One subscription descriptor of the Remote Event API response `data`
array: its `id` and `expires_at` (modelled as integer milliseconds). -/
structure SubDescriptor where
  id : String
  expires_at : Int
deriving DecidableEq

/-- The `StoredSubscription` record persisted by `EventSubManager`. -/
structure StoredSubscription where
  id : String
  type : String
  condition : List (String × String)
  expires_at : Int
deriving DecidableEq

/-- The persisted state object: key to stored record, insertion ordered. -/
abbrev SubState := List (String × StoredSubscription)

/-- Observable control-flow outcome of one `ensureSubscription` call:
early return on a fresh record, normal completion after a creation,
a rejected remote call propagating to the caller, or the `TypeError`
raised by `resp.data[0].id` when the response carries no descriptor. -/
inductive EnsureOutcome where
  | freshHit
  | created
  | apiError (msg : String)
  | noDescriptor
deriving DecidableEq

/-- Result of one `ensureSubscription` call: the state object afterwards,
the number of Remote Event API creation calls performed, the number of
`saveState` writes performed, and the control-flow outcome. -/
structure EnsureResult where
  state : SubState
  apiCalls : Nat
  storeWrites : Nat
  outcome : EnsureOutcome
deriving DecidableEq

/-- The freshness test of `ensureSubscription`:
`existing && new Date(existing.expires_at).getTime() - now > 60 * 1000`. -/
def isFreshAt (st : SubState) (key : String) (now : Int) : Bool :=
  match lookupAssoc st key with
  | some existing => if existing.expires_at - now > 60 * 1000 then true else false
  | none => false

/-- `EventSubManager.ensureSubscription` for one call: `st` is the state
`loadState` returned, `now` is `Date.now()`, and `api` is what the single
`client.createEventSubSubscription` call would deliver (`.error` for a
rejected promise, `.ok data` for a response body's `data` array).  On a fresh
record the function returns before calling the remote API; otherwise the one
remote call is made, and on success the first descriptor is written into the
state, which is saved. -/
def ensureSubscription (st : SubState) (ty : String) (cond : List (String × String))
    (now : Int) (api : Except String (List SubDescriptor)) : EnsureResult :=
  if isFreshAt st (makeKey ty cond) now then
    ⟨st, 0, 0, .freshHit⟩
  else
    match api with
    | .error e => ⟨st, 1, 0, .apiError e⟩
    | .ok [] => ⟨st, 1, 0, .noDescriptor⟩
    | .ok (sub :: _) =>
      ⟨setAssoc st (makeKey ty cond) ⟨sub.id, ty, cond, sub.expires_at⟩, 1, 1, .created⟩

/-- `EventSubManager.loadState`: the backing medium is abstracted as the
result of `fs.readFile` (outer `Except`: a read error for a missing or
unreadable file) followed by `JSON.parse` (inner `Except`: a parse error for
malformed content).  The `try`/`catch` maps every failure to the empty
object and never re-raises. -/
def loadState (readResult : Except String (Except String SubState)) : SubState :=
  match readResult with
  | .ok (.ok parsed) => parsed
  | _ => []

/-- JavaScript strings of the chat layer, as character lists. -/
abbrev JStr := List Char

/-- `String.prototype.toLowerCase` (ASCII, as used for command names). -/
def toLowerStr (s : JStr) : JStr := s.map Char.toLower

/-- `message.startsWith('!')`. -/
def jsStartsWithBang (s : JStr) : Bool :=
  match s with
  | '!' :: _ => true
  | _ => false

/-- `String.prototype.split(' ')`: split at every single space character;
always returns at least one (possibly empty) piece. -/
def splitSp : JStr → List JStr
  | [] => [[]]
  | c :: cs =>
    if c = ' ' then [] :: splitSp cs
    else
      match splitSp cs with
      | t :: ts => (c :: t) :: ts
      | [] => [[c]]

/-- `Array.prototype.join(' ')`. -/
def joinSp : List JStr → JStr
  | [] => []
  | [t] => t
  | t :: rest => t ++ ' ' :: joinSp rest

/-- The `cmd` of `const [cmd, ...args] = message.slice(1).split(' ')`. -/
def cmdToken (message : JStr) : JStr := (splitSp message.tail).headD []

/-- The `args.join(' ')` string handed to the handler. -/
def argsText (message : JStr) : JStr := joinSp (splitSp message.tail).tail

/-- The role lattice of `ChatBot`. -/
inductive UserRole where
  | broadcaster
  | mod
  | vip
  | subscriber
  | viewer
deriving DecidableEq

/-- The fields of `tmi.ChatUserstate` that `ChatBot` reads. -/
structure ChatUserstate where
  userId : JStr
  username : JStr
  badgeBroadcaster : Bool
  mod : Bool
  badgeVip : Bool
  badgeSubscriber : Bool
deriving DecidableEq

/-- `ChatBot.getRole`: first matching badge or flag wins. -/
def getRole (user : ChatUserstate) : UserRole :=
  if user.badgeBroadcaster then .broadcaster
  else if user.mod then .mod
  else if user.badgeVip then .vip
  else if user.badgeSubscriber then .subscriber
  else .viewer

/-- `CommandOptions`.  `cooldownMs = some 0` is distinct from `none` because
the source guards the throttle block with JavaScript truthiness, under which
a declared cooldown of `0` is skipped like an absent one. -/
structure CommandOptions where
  cooldownMs : Option Int
  roles : Option (List UserRole)
deriving DecidableEq

/-- The `commands` map: lowercased name to options, insertion ordered. -/
abbrev Registry := List (JStr × CommandOptions)

/-- The `lastRun` throttle ledger: key string to last timestamp. -/
abbrev Ledger := List (JStr × Int)

/-- The throttle-ledger key built by the source:
the template literal `userstate['user-id'] + ":" + cmd`, where `cmd` is the
raw (not lowercased) command token. -/
def throttleKey (u : ChatUserstate) (cmd : JStr) : JStr :=
  u.userId ++ ':' :: cmd

/-- The JavaScript-truthiness role rejection test
`entry.options.roles && !entry.options.roles.includes(role)`. -/
def roleRejected (allow : Option (List UserRole)) (role : UserRole) : Bool :=
  match allow with
  | some rs => if role ∈ rs then false else true
  | none => false

/-- Result of one `ChatBot.handleMessage` call: the throttle ledger
afterwards, how often `chatMessageCounter.add(1)` ran, and the argument
triple the command handler was invoked with (`none` when no handler ran). -/
structure DispatchResult where
  ledger : Ledger
  counterInc : Nat
  invocation : Option (JStr × ChatUserstate × JStr)
deriving DecidableEq

/-- `ChatBot.handleMessage`: guard on `self` and the `!` marker, count the
message, parse, look up the command, gate on role, gate on cooldown (keyed by
the raw token), record the timestamp on acceptance, invoke the handler. -/
def handleMessage (commands : Registry) (lastRun : Ledger) (channel : JStr)
    (userstate : ChatUserstate) (message : JStr) (self : Bool) (now : Int) :
    DispatchResult :=
  if self || !(jsStartsWithBang message) then ⟨lastRun, 0, none⟩
  else
    match lookupAssoc commands (toLowerStr (cmdToken message)) with
    | none => ⟨lastRun, 1, none⟩
    | some entry =>
      if roleRejected entry.roles (getRole userstate) then ⟨lastRun, 1, none⟩
      else
        match entry.cooldownMs with
        | some c =>
          if c = 0 then ⟨lastRun, 1, some (channel, userstate, argsText message)⟩
          else if now - (lookupAssoc lastRun (throttleKey userstate (cmdToken message))).getD 0 < c
          then ⟨lastRun, 1, none⟩
          else ⟨setAssoc lastRun (throttleKey userstate (cmdToken message)) now, 1,
                some (channel, userstate, argsText message)⟩
        | none => ⟨lastRun, 1, some (channel, userstate, argsText message)⟩

/-- Whitespace test used by the specification-side parse below. -/
def isWsChar (c : Char) : Bool :=
  c = ' ' || c = '\t' || c = '\n' || c = '\r'

/-- Modelled from the spec, for comparison with the source parse: the
argument remainder after splitting the stripped text "on the first
whitespace run" — everything past the first maximal whitespace run. -/
def specArgsAfterRun (s : JStr) : JStr :=
  (s.dropWhile (fun c => !(isWsChar c))).dropWhile isWsChar

/-- Concrete condition mapping used by the repository's regression test. -/
def cond0 : List (String × String) := [("broadcaster_user_id", "1")]

/-- Concrete descriptor echoing the repository's mock remote response. -/
def sub0 : SubDescriptor := ⟨"sub1", 3600000⟩

/-- The stored record the mock response should persist. -/
def rec0 : StoredSubscription := ⟨"sub1", "stream.online", cond0, 3600000⟩

/-- Concrete channel, matching the repository's chat test. -/
def chanLit : JStr := "#chan".data

/-- Concrete viewer user, matching the repository's chat test. -/
def alice : ChatUserstate := ⟨"1".data, "alice".data, false, false, false, false⟩

/-- Registry with `ping` at a 1000 ms cooldown, as in the chat test. -/
def pingCmds : Registry := [("ping".data, ⟨some 1000, none⟩)]

/-- Registry with `ping` carrying no cooldown and no role gate. -/
def pingPlain : Registry := [("ping".data, ⟨none, none⟩)]

theorem lookupAssoc_setAssoc_self {α β : Type} [DecidableEq α]
    (l : List (α × β)) (k : α) (v : β) :
    lookupAssoc (setAssoc l k v) k = some v := by
  induction l with
  | nil => simp [setAssoc, lookupAssoc]
  | cons hd tl ih =>
    obtain ⟨k2, v2⟩ := hd
    by_cases h : k2 = k
    · simp [setAssoc, h, lookupAssoc]
    · simp [setAssoc, h, lookupAssoc, ih]

theorem splitSp_ne_nil (l : JStr) : splitSp l ≠ [] := by
  cases l with
  | nil => simp [splitSp]
  | cons c cs =>
    simp only [splitSp]
    by_cases h : c = ' '
    · simp [h]
    · simp only [h, if_false]
      cases hs : splitSp cs with
      | nil => simp
      | cons t ts => simp

theorem splitSp_append_space (l r : JStr) (h : ' ' ∉ l) :
    splitSp (l ++ ' ' :: r) = l :: splitSp r := by
  induction l with
  | nil => simp [splitSp]
  | cons c cs ih =>
    have hc : ¬ (c = ' ') := fun hcc => h (by simp [hcc])
    have ih2 : splitSp (cs ++ ' ' :: r) = cs :: splitSp r :=
      ih (fun hmem => h (List.mem_cons_of_mem c hmem))
    simp only [List.cons_append, splitSp, hc, if_false, List.append_eq, ih2]

theorem joinSp_cons (t : JStr) (ts : List JStr) (h : ts ≠ []) :
    joinSp (t :: ts) = t ++ ' ' :: joinSp ts := by
  cases ts with
  | nil => exact absurd rfl h
  | cons t2 ts2 => rfl

theorem joinSp_splitSp (l : JStr) : joinSp (splitSp l) = l := by
  induction l with
  | nil => rfl
  | cons c cs ih =>
    by_cases h : c = ' '
    · subst h
      have hsp : splitSp (' ' :: cs) = [] :: splitSp cs := by
        simp [splitSp]
      rw [hsp, joinSp_cons [] (splitSp cs) (splitSp_ne_nil cs)]
      simp [ih]
    · simp only [splitSp, h, if_false]
      cases hs : splitSp cs with
      | nil => exact absurd hs (splitSp_ne_nil cs)
      | cons t ts =>
        rw [hs] at ih
        cases ts with
        | nil =>
          simp only [joinSp] at ih ⊢
          rw [ih]
        | cons t2 ts2 =>
          rw [joinSp_cons (c :: t) (t2 :: ts2) (by simp)]
          rw [joinSp_cons t (t2 :: ts2) (by simp)] at ih
          simp only [List.cons_append]
          rw [ih]

/-- Claim C1: the spec requires `makeKey` to yield equal keys for condition
mappings holding the same key/value pairs regardless of insertion order.  The
source derives the key with `JSON.stringify(condition)`, which serialises the
fields in insertion order, so the two orderings of the same two-pair mapping
produce different keys: the code violates the claim. -/
theorem makeKey_depends_on_insertion_order :
    makeKey "t" [("a", "1"), ("b", "2")] ≠ makeKey "t" [("b", "2"), ("a", "1")] := by
  decide

/-- Claim C2: a record whose `expires_at` lies more than the 60 s lead-time
past `now` short-circuits `ensureSubscription` — no Remote Event API call, no
store write, state untouched; consequently a creation followed by a second
call while the created record is still fresh performs exactly one remote
creation call in total and the second call writes nothing. -/
theorem ensureSubscription_fresh_idempotent :
    (∀ (st : SubState) (ty : String) (cond : List (String × String)) (now : Int)
        (api : Except String (List SubDescriptor)) (existing : StoredSubscription),
      lookupAssoc st (makeKey ty cond) = some existing →
      existing.expires_at - now > 60 * 1000 →
      ensureSubscription st ty cond now api = ⟨st, 0, 0, .freshHit⟩) ∧
    (∀ (st : SubState) (ty : String) (cond : List (String × String)) (now1 now2 : Int)
        (sub : SubDescriptor) (rest : List SubDescriptor)
        (api2 : Except String (List SubDescriptor)),
      isFreshAt st (makeKey ty cond) now1 = false →
      sub.expires_at - now2 > 60 * 1000 →
      (ensureSubscription st ty cond now1 (.ok (sub :: rest))).apiCalls = 1 ∧
      (ensureSubscription (ensureSubscription st ty cond now1 (.ok (sub :: rest))).state
          ty cond now2 api2).apiCalls = 0 ∧
      (ensureSubscription (ensureSubscription st ty cond now1 (.ok (sub :: rest))).state
          ty cond now2 api2).storeWrites = 0) := by
  constructor
  · intro st ty cond now api existing hlook hfresh
    have hf : isFreshAt st (makeKey ty cond) now = true := by
      simp [isFreshAt, hlook]
      omega
    simp [ensureSubscription, hf]
  · intro st ty cond now1 now2 sub rest api2 hmiss hfresh2
    have h1 : ensureSubscription st ty cond now1 (.ok (sub :: rest)) =
        ⟨setAssoc st (makeKey ty cond) ⟨sub.id, ty, cond, sub.expires_at⟩, 1, 1, .created⟩ := by
      simp [ensureSubscription, hmiss]
    have h2 : isFreshAt (setAssoc st (makeKey ty cond)
        ⟨sub.id, ty, cond, sub.expires_at⟩) (makeKey ty cond) now2 = true := by
      simp [isFreshAt, lookupAssoc_setAssoc_self]
      omega
    have h3 : ensureSubscription
        (ensureSubscription st ty cond now1 (.ok (sub :: rest))).state ty cond now2 api2 =
        ⟨setAssoc st (makeKey ty cond) ⟨sub.id, ty, cond, sub.expires_at⟩, 0, 0, .freshHit⟩ := by
      rw [h1]
      simp [ensureSubscription, h2]
    refine ⟨by rw [h1], by rw [h3], by rw [h3]⟩

/-- Claim C2 witness: in the repository's test scenario (empty state, mock
descriptor expiring an hour out) the first call makes the single remote call
and the second call, 1 s later, makes none and writes nothing. -/
theorem ensureSubscription_fresh_idempotent_witness :
    (ensureSubscription [] "stream.online" cond0 0 (.ok [sub0])).apiCalls = 1 ∧
    (ensureSubscription (ensureSubscription [] "stream.online" cond0 0 (.ok [sub0])).state
        "stream.online" cond0 1000 (.ok [])).apiCalls = 0 ∧
    (ensureSubscription (ensureSubscription [] "stream.online" cond0 0 (.ok [sub0])).state
        "stream.online" cond0 1000 (.ok [])).storeWrites = 0 :=
  ensureSubscription_fresh_idempotent.2 [] "stream.online" cond0 0 1000 sub0 [] (.ok [])
    (by decide) (by decide)

/-- Claim C3: whenever `ensureSubscription` takes the creation path and the
remote response carries at least one descriptor, the call completes the
created outcome with one durable write and the state maps the derived key to
a record holding the first descriptor's id, the event type, the condition
verbatim, and the returned expiry. -/
theorem ensureSubscription_persists_api_id
    (st : SubState) (ty : String) (cond : List (String × String)) (now : Int)
    (sub : SubDescriptor) (rest : List SubDescriptor)
    (hmiss : isFreshAt st (makeKey ty cond) now = false) :
    (ensureSubscription st ty cond now (.ok (sub :: rest))).outcome = .created ∧
    (ensureSubscription st ty cond now (.ok (sub :: rest))).storeWrites = 1 ∧
    lookupAssoc (ensureSubscription st ty cond now (.ok (sub :: rest))).state (makeKey ty cond)
      = some ⟨sub.id, ty, cond, sub.expires_at⟩ := by
  refine ⟨?_, ?_, ?_⟩ <;>
    simp [ensureSubscription, hmiss, lookupAssoc_setAssoc_self]

/-- Claim C3 witness: the repository's test scenario persists the record with
the mocked remote id `sub1` under the derived key. -/
theorem ensureSubscription_persists_api_id_witness :
    (ensureSubscription [] "stream.online" cond0 0 (.ok [sub0])).outcome = .created ∧
    (ensureSubscription [] "stream.online" cond0 0 (.ok [sub0])).storeWrites = 1 ∧
    lookupAssoc (ensureSubscription [] "stream.online" cond0 0 (.ok [sub0])).state
      (makeKey "stream.online" cond0) = some rec0 :=
  ensureSubscription_persists_api_id [] "stream.online" cond0 0 sub0 [] (by decide)

/-- Claim C5: when the creation path is taken and the remote call fails, the
failure is the call's outcome (it propagates to the caller), exactly one
remote call was attempted (no internal retry inside the manager), and the
state is untouched with zero store writes. -/
theorem ensureSubscription_error_propagates
    (st : SubState) (ty : String) (cond : List (String × String)) (now : Int) (e : String)
    (hmiss : isFreshAt st (makeKey ty cond) now = false) :
    ensureSubscription st ty cond now (.error e) = ⟨st, 1, 0, .apiError e⟩ := by
  simp [ensureSubscription, hmiss]

/-- Claim C5 witness: a failing remote call against the empty state leaves
the state empty, performs no write, and surfaces the error. -/
theorem ensureSubscription_error_propagates_witness :
    ensureSubscription [] "stream.online" cond0 0 (.error "boom")
      = ⟨[], 1, 0, .apiError "boom"⟩ :=
  ensureSubscription_error_propagates [] "stream.online" cond0 0 "boom" (by decide)

/-- Claim C6: `loadState` is a total function of the backing-medium outcome —
it never raises; a read failure or a parse failure degrades to the empty
mapping, and readable persisted data is returned as is. -/
theorem loadState_never_fails :
    (∀ e : String, loadState (.error e) = []) ∧
    (∀ e : String, loadState (.ok (.error e)) = []) ∧
    (∀ st : SubState, loadState (.ok (.ok st)) = st) :=
  ⟨fun _ => rfl, fun _ => rfl, fun _ => rfl⟩

/-- Claim C7: a message from the bot itself, or one not starting with the
`!` marker, is discarded silently — no handler invocation, no counter
increment, and an unchanged throttle ledger. -/
theorem handleMessage_ignores_self_and_plain
    (commands : Registry) (lastRun : Ledger) (channel : JStr)
    (userstate : ChatUserstate) (message : JStr) (self : Bool) (now : Int)
    (h : self = true ∨ jsStartsWithBang message = false) :
    handleMessage commands lastRun channel userstate message self now
      = ⟨lastRun, 0, none⟩ := by
  rcases h with h | h <;> simp [handleMessage, h]

/-- Claim C7 witness: `!ping` from the bot's own account matches a registered
command yet dispatches nothing. -/
theorem handleMessage_ignores_self_and_plain_witness :
    handleMessage pingCmds [] chanLit alice "!ping".data true 0 = ⟨[], 0, none⟩ :=
  handleMessage_ignores_self_and_plain pingCmds [] chanLit alice "!ping".data true 0
    (Or.inl rfl)

/-- Claim C4 counterexample: `ping` is registered with a 1000 ms cooldown;
user `1` sends `!ping` at t = 1000 and `!PING` at t = 1500.  Both messages
dispatch to the same registered command back-to-back within the cooldown, yet
both invoke the handler, because the source keys the throttle ledger by the
raw token (`PING`), not the lowercased command name the claim states — under
the claim's key the second message would have been throttled. -/
theorem handleMessage_cooldown_claim_false :
    (handleMessage pingCmds [] chanLit alice "!ping".data false 1000).invocation.isSome
      = true ∧
    (handleMessage pingCmds
        (handleMessage pingCmds [] chanLit alice "!ping".data false 1000).ledger
        chanLit alice "!PING".data false 1500).invocation.isSome = true ∧
    toLowerStr "PING".data = "ping".data ∧
    ((1500 : Int) - 1000 < 1000) := by
  refine ⟨by decide, by decide, by decide, by decide⟩

/-- Claim C4 (amended): the throttle key combines the user identifier with
the raw command token as typed (not lowercased); within the cooldown window
the handler is not invoked and the ledger entry is not updated, otherwise
`now` is recorded for that key and the handler is invoked; in particular two
back-to-back deliveries of the identical message text under a cooldown yield
exactly one handler invocation. -/
theorem handleMessage_cooldown_throttles
    (commands : Registry) (lastRun : Ledger) (channel : JStr) (u : ChatUserstate)
    (message : JStr) (now c : Int) (entry : CommandOptions)
    (hbang : jsStartsWithBang message = true)
    (hentry : lookupAssoc commands (toLowerStr (cmdToken message)) = some entry)
    (hrole : roleRejected entry.roles (getRole u) = false)
    (hcd : entry.cooldownMs = some c) (hc0 : c ≠ 0) :
    (now - (lookupAssoc lastRun (throttleKey u (cmdToken message))).getD 0 < c →
        handleMessage commands lastRun channel u message false now = ⟨lastRun, 1, none⟩) ∧
    (¬ now - (lookupAssoc lastRun (throttleKey u (cmdToken message))).getD 0 < c →
        handleMessage commands lastRun channel u message false now =
          ⟨setAssoc lastRun (throttleKey u (cmdToken message)) now, 1,
            some (channel, u, argsText message)⟩) ∧
    (∀ now2 : Int,
        lookupAssoc lastRun (throttleKey u (cmdToken message)) = none →
        ¬ now - 0 < c → now2 - now < c →
        (handleMessage commands lastRun channel u message false now).invocation.isSome
          = true ∧
        (handleMessage commands
            (handleMessage commands lastRun channel u message false now).ledger
            channel u message false now2).invocation = none) := by
  have hmain : ∀ (lr : Ledger) (t : Int),
      handleMessage commands lr channel u message false t =
        if t - (lookupAssoc lr (throttleKey u (cmdToken message))).getD 0 < c
        then ⟨lr, 1, none⟩
        else ⟨setAssoc lr (throttleKey u (cmdToken message)) t, 1,
              some (channel, u, argsText message)⟩ := by
    intro lr t
    simp [handleMessage, hbang, hentry, hrole, hcd, hc0]
  refine ⟨?_, ?_, ?_⟩
  · intro hlt
    rw [hmain, if_pos hlt]
  · intro hge
    rw [hmain, if_neg hge]
  · intro now2 hnone hfirst hlt2
    have e1 : handleMessage commands lastRun channel u message false now =
        ⟨setAssoc lastRun (throttleKey u (cmdToken message)) now, 1,
          some (channel, u, argsText message)⟩ := by
      rw [hmain, hnone, if_neg]
      exact hfirst
    constructor
    · rw [e1]
      rfl
    · rw [e1]
      rw [hmain (setAssoc lastRun (throttleKey u (cmdToken message)) now) now2]
      rw [lookupAssoc_setAssoc_self]
      simp only [Option.getD_some]
      rw [if_pos hlt2]

/-- Claim C4 witness: in the repository's test scenario — `ping` at a 1000 ms
cooldown, user `1`, identical text twice within the window — the first
delivery invokes the handler and the second is throttled. -/
theorem handleMessage_cooldown_throttles_witness :
    (handleMessage pingCmds [] chanLit alice "!ping".data false 1000).invocation.isSome
      = true ∧
    (handleMessage pingCmds
        (handleMessage pingCmds [] chanLit alice "!ping".data false 1000).ledger
        chanLit alice "!ping".data false 1500).invocation = none :=
  (handleMessage_cooldown_throttles pingCmds [] chanLit alice "!ping".data 1000 1000
      ⟨some 1000, none⟩ (by decide) (by decide) (by decide) rfl (by decide)).2.2 1500
    (by decide) (by decide) (by decide)

/-- Claim C8 counterexample: with `ping` registered and the message
`!ping  hi` (two spaces), the handler receives `" hi"` — the remainder after
the first space character, leading space preserved — whereas splitting on the
first whitespace run, as the claim states, yields the remainder `"hi"`. -/
theorem handleMessage_args_claim_false :
    (handleMessage pingPlain [] chanLit alice "!ping  hi".data false 0).invocation
      = some (chanLit, alice, " hi".data) ∧
    specArgsAfterRun "ping  hi".data = "hi".data ∧
    " hi".data ≠ "hi".data := by
  refine ⟨by decide, by decide, by decide⟩

/-- Claim C8 (amended): the dispatcher strips the `!` marker and splits on
single space characters: the command name is the lowercased text before the
first space and the handler is invoked with `(channel, user, remainder)`
where the remainder is the text after the first space character, any further
whitespace preserved. -/
theorem handleMessage_args_after_first_space
    (commands : Registry) (lastRun : Ledger) (channel : JStr) (u : ChatUserstate)
    (tok rest : JStr) (now : Int) (entry : CommandOptions)
    (htok : ' ' ∉ tok)
    (hentry : lookupAssoc commands (toLowerStr tok) = some entry)
    (hrole : roleRejected entry.roles (getRole u) = false)
    (hcd : entry.cooldownMs = none) :
    handleMessage commands lastRun channel u ('!' :: (tok ++ ' ' :: rest)) false now
      = ⟨lastRun, 1, some (channel, u, rest)⟩ := by
  have hsplit : splitSp (tok ++ ' ' :: rest) = tok :: splitSp rest :=
    splitSp_append_space tok rest htok
  have hcmd : cmdToken ('!' :: (tok ++ ' ' :: rest)) = tok := by
    simp [cmdToken, hsplit]
  have hargs : argsText ('!' :: (tok ++ ' ' :: rest)) = rest := by
    simp [argsText, hsplit, joinSp_splitSp]
  simp [handleMessage, jsStartsWithBang, hcmd, hargs, hentry, hrole, hcd]

/-- Claim C8 witness: `!ping  hi` delivered against a plain `ping`
registration invokes the handler with the post-first-space remainder
`" hi"`. -/
theorem handleMessage_args_after_first_space_witness :
    handleMessage pingPlain [] chanLit alice ('!' :: ("ping".data ++ ' ' :: " hi".data))
        false 0 = ⟨[], 1, some (chanLit, alice, " hi".data)⟩ :=
  handleMessage_args_after_first_space pingPlain [] chanLit alice "ping".data " hi".data 0
    ⟨none, none⟩ (by decide) (by decide) (by decide) rfl

/-- Claim C10: when the creation path is taken and the Remote Event API
returns an empty `data` array, the unguarded `resp.data[0].id` access fails:
the call's outcome is the no-descriptor error, not a normal completion, and
no record is written (state untouched, zero writes). -/
theorem ensureSubscription_empty_data_fails
    (st : SubState) (ty : String) (cond : List (String × String)) (now : Int)
    (hmiss : isFreshAt st (makeKey ty cond) now = false) :
    ensureSubscription st ty cond now (.ok []) = ⟨st, 1, 0, .noDescriptor⟩ := by
  simp [ensureSubscription, hmiss]

/-- Claim C10 witness: an empty-`data` response against the empty state
leaves the state empty, writes nothing, and is not the created outcome. -/
theorem ensureSubscription_empty_data_fails_witness :
    ensureSubscription [] "stream.online" cond0 0 (.ok [])
      = ⟨[], 1, 0, .noDescriptor⟩ :=
  ensureSubscription_empty_data_fails [] "stream.online" cond0 0 (by decide)

end StreamKit
